import Mathlib

/-!
Verification of the hypertension decision engine
(`data/rules/medical_rules.py` and
`app/services/medical_advice_service.py`): a shallow embedding of the
pure rule functions, with theorems settling the specified properties.
Blood-pressure readings are Python floats in the source; they are
modelled as rationals, every comparison in the source being an order
comparison on literals.
-/

/-- Severity classes produced by the classifier
(enum `BloodPressureLevel` in `medical_rules.py`). -/
inductive BloodPressureLevel where
  | NORMAL
  | HIGH_NORMAL
  | GRADE_1
  | GRADE_2
  | GRADE_3
  | ISOLATED_SYSTOLIC
deriving Repr, DecidableEq

/-- Display string of each level (the `.value` attribute of the Python
enum), compared against string literals by `_generate_followup_plan`. -/
def BloodPressureLevel.value : BloodPressureLevel → String
  | .NORMAL => "正常血压"
  | .HIGH_NORMAL => "正常高值"
  | .GRADE_1 => "1级高血压"
  | .GRADE_2 => "2级高血压"
  | .GRADE_3 => "3级高血压"
  | .ISOLATED_SYSTOLIC => "单纯收缩期高血压"

/-- Risk tiers (enum `RiskLevel` in `medical_rules.py`). -/
inductive RiskLevel where
  | LOW
  | MEDIUM
  | HIGH
  | VERY_HIGH
deriving Repr, DecidableEq

/-- Patient profile (dataclass `PatientProfile` in `medical_rules.py`).
Fields not consulted by any verified function
(`hypertension_duration`, `current_medications`) are omitted. -/
structure PatientProfile where
  age : Int
  gender : String
  systolic_bp : ℚ
  diastolic_bp : ℚ
  smoking : Bool := false
  diabetes : Bool := false
  family_history : Bool := false
  heart_disease : Bool := false
  kidney_disease : Bool := false
  stroke_history : Bool := false
  bmi : Option ℚ := none
  allergies : Option String := none
deriving Repr, DecidableEq

/-- `HypertensionRuleEngine.classify_blood_pressure`
(`medical_rules.py` lines 56-73): the eight-branch if/elif chain,
in source order. -/
def classify_blood_pressure (systolic diastolic : ℚ) : BloodPressureLevel :=
  if systolic < 120 ∧ diastolic < 80 then .NORMAL
  else if systolic < 130 ∧ diastolic < 80 then .HIGH_NORMAL
  else if (130 ≤ systolic ∧ systolic < 140) ∨ (80 ≤ diastolic ∧ diastolic < 90) then .HIGH_NORMAL
  else if (140 ≤ systolic ∧ systolic < 160) ∨ (90 ≤ diastolic ∧ diastolic < 100) then .GRADE_1
  else if (160 ≤ systolic ∧ systolic < 180) ∨ (100 ≤ diastolic ∧ diastolic < 110) then .GRADE_2
  else if 180 ≤ systolic ∨ 110 ≤ diastolic then .GRADE_3
  else if 140 ≤ systolic ∧ diastolic < 90 then .ISOLATED_SYSTOLIC
  else .HIGH_NORMAL

/-- Ordinal severity rank of a level (NORMAL < HIGH_NORMAL < GRADE_1 <
GRADE_2 < GRADE_3; the non-ordinal ISOLATED_SYSTOLIC is placed last). -/
def severityRank : BloodPressureLevel → ℕ
  | .NORMAL => 0
  | .HIGH_NORMAL => 1
  | .GRADE_1 => 2
  | .GRADE_2 => 3
  | .GRADE_3 => 4
  | .ISOLATED_SYSTOLIC => 5

/-- The risk-factor count computed inside
`HypertensionRuleEngine.assess_cardiovascular_risk`
(`medical_rules.py` lines 79-92): one per true flag in
`self.risk_factors`, plus one for the age/gender rule, plus one when a
BMI is recorded and is at least 28 (Python: a falsy `bmi` of `0.0`
skips the branch, but `0 ≥ 28` fails anyway). -/
def risk_count (p : PatientProfile) : ℕ :=
  [p.smoking, p.diabetes, p.family_history,
    p.heart_disease, p.kidney_disease, p.stroke_history].count true
  + (if (55 ≤ p.age ∧ p.gender = "男") ∨ (65 ≤ p.age ∧ p.gender = "女") then 1 else 0)
  + (match p.bmi with
     | some b => if 28 ≤ b then 1 else 0
     | none => 0)

/-- `target_organ_damage` as computed in `assess_cardiovascular_risk`
(`medical_rules.py` line 95). -/
def target_organ_damage (p : PatientProfile) : Bool :=
  p.heart_disease || p.kidney_disease || p.stroke_history

/-- `HypertensionRuleEngine.assess_cardiovascular_risk`
(`medical_rules.py` lines 75-122): tier table over the classified
level, the risk count and the damage flag, in source branch order
(the final `else` catches both GRADE_3 and ISOLATED_SYSTOLIC). -/
def assess_cardiovascular_risk (p : PatientProfile) : RiskLevel :=
  let bp := classify_blood_pressure p.systolic_bp p.diastolic_bp
  let rc := risk_count p
  let damage := target_organ_damage p
  if bp = .NORMAL then .LOW
  else if bp = .HIGH_NORMAL then
    if rc = 0 then .LOW
    else if rc ≤ 2 then .MEDIUM
    else .HIGH
  else if bp = .GRADE_1 then
    if rc = 0 then .MEDIUM
    else if rc ≤ 2 ∧ damage = false then .MEDIUM
    else if 3 ≤ rc ∨ damage = true then .HIGH
    else .VERY_HIGH
  else if bp = .GRADE_2 then
    if rc ≤ 2 ∧ damage = false then .HIGH
    else .VERY_HIGH
  else .VERY_HIGH

/-- `HypertensionRuleEngine.get_target_blood_pressure`
(`medical_rules.py` lines 124-133). -/
def get_target_blood_pressure (p : PatientProfile) : Int × Int :=
  if p.diabetes = true ∨ p.kidney_disease = true then (130, 80)
  else if 65 ≤ p.age then (150, 90)
  else if p.heart_disease = true then (130, 80)
  else (140, 90)

/-- One preferred-drug entry appended by `recommend_medications`. -/
structure DrugRecommendation where
  type : String
  examples : List String
  reason : String
deriving Repr, DecidableEq

/-- The dict returned by `HypertensionRuleEngine.recommend_medications`.
The `recommendation` key is present only on the lifestyle-only early
return, hence an `Option`. -/
structure MedicationResult where
  needs_medication : Bool
  primary_drugs : List DrugRecommendation
  combination_drugs : List String
  contraindications : List String
  recommendation : Option String
deriving Repr, DecidableEq

/-- The local `needs_medication` computed at the top of
`recommend_medications` (`medical_rules.py` lines 173-179). -/
def needs_medication_flag (p : PatientProfile) : Bool :=
  let bp := classify_blood_pressure p.systolic_bp p.diastolic_bp
  let risk := assess_cardiovascular_risk p
  if bp = .GRADE_2 ∨ bp = .GRADE_3 then true
  else if bp = .GRADE_1 then
    if risk = .HIGH ∨ risk = .VERY_HIGH then true else false
  else false

/-- The ACEI/ARB entry appended for diabetic or kidney-disease
patients (`medical_rules.py` lines 195-200). -/
def acei_comorbid_drug : DrugRecommendation :=
  { type := "ACEI/ARB"
    examples := ["依那普利", "氯沙坦", "缬沙坦"]
    reason := "糖尿病/肾病患者首选，具有肾脏保护作用" }

/-- The beta-blocker entry appended for heart-disease patients
(`medical_rules.py` lines 202-207). -/
def beta_blocker_drug : DrugRecommendation :=
  { type := "β受体阻滞剂"
    examples := ["美托洛尔", "比索洛尔"]
    reason := "冠心病患者首选，可降低心脏事件风险" }

/-- The calcium-channel-blocker entry appended for age ≥ 60 or
isolated-systolic patients (`medical_rules.py` lines 209-214). -/
def ccb_drug : DrugRecommendation :=
  { type := "钙通道阻滞剂"
    examples := ["氨氯地平", "硝苯地平缓释片"]
    reason := "老年患者和单纯收缩期高血压首选" }

/-- The general first-line default entry used when no special rule
matched (`medical_rules.py` lines 217-222). -/
def acei_default_drug : DrugRecommendation :=
  { type := "ACEI/ARB"
    examples := ["依那普利", "氯沙坦"]
    reason := "一线降压药物，心血管保护作用确切" }

/-- The local `primary_drugs` list of `recommend_medications` as built
by the three independent appends (`medical_rules.py` lines 193-214),
before the empty-list default is applied. -/
def primary_drug_pool (p : PatientProfile) (bp : BloodPressureLevel) : List DrugRecommendation :=
  (if p.diabetes = true ∨ p.kidney_disease = true then [acei_comorbid_drug] else [])
  ++ (if p.heart_disease = true then [beta_blocker_drug] else [])
  ++ (if 60 ≤ p.age ∨ bp = .ISOLATED_SYSTOLIC then [ccb_drug] else [])

/-- `HypertensionRuleEngine.recommend_medications`
(`medical_rules.py` lines 168-241). -/
def recommend_medications (p : PatientProfile) : MedicationResult :=
  let bp := classify_blood_pressure p.systolic_bp p.diastolic_bp
  if needs_medication_flag p = false then
    { needs_medication := false
      primary_drugs := []
      combination_drugs := []
      contraindications := []
      recommendation := some "暂时不需要药物治疗，建议生活方式干预，3个月后复查" }
  else
    { needs_medication := true
      primary_drugs :=
        if primary_drug_pool p bp = [] then [acei_default_drug] else primary_drug_pool p bp
      combination_drugs :=
        if bp = .GRADE_2 ∨ bp = .GRADE_3 then
          ["ACEI/ARB + 钙通道阻滞剂", "ACEI/ARB + 利尿剂", "钙通道阻滞剂 + 利尿剂"]
        else []
      contraindications :=
        match p.allergies with
        | some a => if a = "" then [] else ["注意药物过敏史：" ++ a]
        | none => []
      recommendation := none }

/-- The dict returned by `HypertensionRuleEngine.generate_monitoring_plan`,
flattened (`blood_pressure`, `follow_up` and `laboratory` keys). -/
structure MonitoringPlan where
  bp_frequency : String
  bp_target : Int × Int
  bp_notes : String
  follow_up_initial : String
  follow_up_stable : String
  follow_up_notes : String
  laboratory : List String
deriving Repr, DecidableEq

/-- `HypertensionRuleEngine.generate_monitoring_plan`
(`medical_rules.py` lines 243-270): a fixed plan skeleton, the lab
panel extended per comorbidity; the follow-up strings are constants
independent of the blood-pressure level. -/
def generate_monitoring_plan (p : PatientProfile) : MonitoringPlan :=
  let lab_tests :=
    ["血常规", "生化全项", "尿常规", "心电图"]
    ++ (if p.diabetes = true then ["HbA1c", "糖化血红蛋白"] else [])
    ++ (if p.kidney_disease = true then ["肾功能", "尿蛋白"] else [])
  { bp_frequency := "每周2-3次"
    bp_target := get_target_blood_pressure p
    bp_notes := "建议家庭血压监测，记录血压日记"
    follow_up_initial := "2-4周后复查，评估疗效"
    follow_up_stable := "血压稳定后每1-3个月复查"
    follow_up_notes := "调整药物剂量或联合用药"
    laboratory := lab_tests }

/-- The dict returned by
`MedicalAdviceGenerator._generate_followup_plan`. -/
structure FollowUpPlan where
  initial_follow_up : String
  adjustment_period : String
  stable_follow_up : String
  annual_assessment : String
deriving Repr, DecidableEq

/-- `MedicalAdviceGenerator._generate_followup_plan`
(`medical_advice_service.py` lines 327-351): cadence bands selected by
comparing the classified level's display string. -/
def generate_followup_plan (p : PatientProfile) : FollowUpPlan :=
  let v := (classify_blood_pressure p.systolic_bp p.diastolic_bp).value
  if v = "3级高血压" ∨ v = "2级高血压" then
    { initial_follow_up := "1-2周"
      adjustment_period := "每2-4周调整治疗方案"
      stable_follow_up := "血压稳定后每1-2个月"
      annual_assessment := "每年全面评估一次" }
  else if v = "1级高血压" then
    { initial_follow_up := "2-4周"
      adjustment_period := "每4-6周评估疗效"
      stable_follow_up := "血压稳定后每2-3个月"
      annual_assessment := "每年全面评估一次" }
  else
    { initial_follow_up := "1-3个月"
      adjustment_period := "根据需要调整"
      stable_follow_up := "每3-6个月"
      annual_assessment := "每年体检一次" }

/-- The dict returned by
`MedicalAdviceGenerator._check_emergency_status`. -/
structure EmergencyInfo where
  is_emergency : Bool
  urgency_level : String
  warnings : List String
  immediate_actions : List String
deriving Repr, DecidableEq

/-- `MedicalAdviceGenerator._check_emergency_status`
(`medical_advice_service.py` lines 283-325): the crisis branch and the
lower-urgency branch form an if/elif pair (mutually exclusive); the
diabetes and stroke-history warnings are then appended to whichever
branch's warning list was installed. -/
def check_emergency_status (p : PatientProfile) : EmergencyInfo :=
  let base : EmergencyInfo :=
    if 180 ≤ p.systolic_bp ∨ 110 ≤ p.diastolic_bp then
      { is_emergency := true
        urgency_level := "紧急"
        warnings := ["血压严重升高，属于高血压危象"]
        immediate_actions :=
          ["立即就医，不要等待", "避免血压急剧下降", "监测神经系统症状", "准备急救药物"] }
    else if 160 ≤ p.systolic_bp ∨ 100 ≤ p.diastolic_bp then
      { is_emergency := false
        urgency_level := "优先"
        warnings := ["血压明显升高，需要及时干预"]
        immediate_actions := ["1-2周内就医", "开始或调整降压治疗", "密切监测血压变化"] }
    else
      { is_emergency := false
        urgency_level := "常规"
        warnings := []
        immediate_actions := [] }
  let w1 :=
    if p.diabetes = true ∧ (140 ≤ p.systolic_bp ∨ 90 ≤ p.diastolic_bp) then
      base.warnings ++ ["糖尿病患者血压控制目标更严格"]
    else base.warnings
  let w2 :=
    if p.stroke_history = true ∧ 160 ≤ p.systolic_bp then
      w1 ++ ["有脑卒中史，血压控制不佳，脑血管事件风险增加"]
    else w1
  { base with warnings := w2 }

/-- The pair returned by `HypertensionAgent.emergency_check`
(the `emergency_info` key, a knowledge-base lookup attached when
`is_emergency` is set, is not modelled). -/
structure EmergencyCheck where
  is_emergency : Bool
  warnings : List String
deriving Repr, DecidableEq

/-- `HypertensionAgent.emergency_check` (`ai_agent.py` lines 428-445):
two INDEPENDENT `if` statements, so the crisis warnings and the
lower-urgency warning may both be appended on the same input. -/
def emergency_check (systolic diastolic : ℚ) : EmergencyCheck :=
  let w1 :=
    if 180 ≤ systolic ∨ 110 ≤ diastolic then
      ["血压严重升高，属于高血压危象", "建议立即就医，不要等待"]
    else []
  let w2 :=
    if 160 ≤ systolic ∨ 100 ≤ diastolic then ["血压明显升高，建议尽快就医"] else []
  { is_emergency := decide (180 ≤ systolic ∨ 110 ≤ diastolic)
    warnings := w1 ++ w2 }

/-! ## Specification-side definitions

`classify_spec` renders the spec's section 4.1 as it is worded there: an
explicit eight-row table evaluated top-down, first match winning, with
rule 8 as the fallback. It is compared with the source translation
`classify_blood_pressure` in the C3 refinement theorem. -/

/-- Rows 1-7 of the spec's classification table (section 4.1), in the
stated order; the first component is the row's predicate, the second
its level. -/
def spec_rule_table : List ((ℚ → ℚ → Bool) × BloodPressureLevel) :=
  [ (fun s d => decide (s < 120) && decide (d < 80), .NORMAL),
    (fun s d => decide (s < 130) && decide (d < 80), .HIGH_NORMAL),
    (fun s d => (decide (130 ≤ s) && decide (s < 140)) || (decide (80 ≤ d) && decide (d < 90)),
      .HIGH_NORMAL),
    (fun s d => (decide (140 ≤ s) && decide (s < 160)) || (decide (90 ≤ d) && decide (d < 100)),
      .GRADE_1),
    (fun s d => (decide (160 ≤ s) && decide (s < 180)) || (decide (100 ≤ d) && decide (d < 110)),
      .GRADE_2),
    (fun s d => decide (180 ≤ s) || decide (110 ≤ d), .GRADE_3),
    (fun s d => decide (140 ≤ s) && decide (d < 90), .ISOLATED_SYSTOLIC) ]

/-- Top-down, first-match-wins evaluation of a rule table; an exhausted
table yields the spec's rule-8 fallback, HIGH_NORMAL. -/
def first_match : List ((ℚ → ℚ → Bool) × BloodPressureLevel) → ℚ → ℚ → BloodPressureLevel
  | [], _, _ => .HIGH_NORMAL
  | r :: rs, s, d => if r.1 s d then r.2 else first_match rs s d

/-- The classifier exactly as the spec words it (section 4.1). -/
def classify_spec (s d : ℚ) : BloodPressureLevel := first_match spec_rule_table s d

/-- The risk-tier table exactly as claim C4 words it, over the level,
the risk count and the damage flag. -/
def tier_spec : BloodPressureLevel → ℕ → Bool → RiskLevel
  | .NORMAL, _, _ => .LOW
  | .HIGH_NORMAL, rc, _ => if rc = 0 then .LOW else if rc ≤ 2 then .MEDIUM else .HIGH
  | .GRADE_1, rc, damage =>
      if rc = 0 ∨ (rc ≤ 2 ∧ damage = false) then .MEDIUM
      else if 3 ≤ rc ∨ damage = true then .HIGH
      else .VERY_HIGH
  | .GRADE_2, rc, damage => if rc ≤ 2 ∧ damage = false then .HIGH else .VERY_HIGH
  | .GRADE_3, _, _ => .VERY_HIGH
  | .ISOLATED_SYSTOLIC, _, _ => .VERY_HIGH

/-! ## Helper lemmas -/

/-- For diastolic below 80, the classifier reduces to a systolic-only
ladder (the diastolic disjuncts of rules 3-6 cannot fire). -/
theorem classify_of_dlt80 (s d : ℚ) (hd : d < 80) :
    classify_blood_pressure s d =
      if s < 120 then .NORMAL
      else if s < 140 then .HIGH_NORMAL
      else if s < 160 then .GRADE_1
      else if s < 180 then .GRADE_2
      else .GRADE_3 := by
  unfold classify_blood_pressure
  split_ifs <;> simp_all <;> linarith

/-- For diastolic in [80, 90), rule 3's diastolic disjunct always
fires, so the classifier is constantly HIGH_NORMAL. -/
theorem classify_of_dband (s d : ℚ) (h80 : 80 ≤ d) (hd : d < 90) :
    classify_blood_pressure s d = .HIGH_NORMAL := by
  unfold classify_blood_pressure
  have h1 : ¬(s < 120 ∧ d < 80) := fun h => absurd h.2 (by linarith)
  have h2 : ¬(s < 130 ∧ d < 80) := fun h => absurd h.2 (by linarith)
  rw [if_neg h1, if_neg h2, if_pos (Or.inr ⟨h80, hd⟩)]

/-- With the diastolic fixed below 90, the classified severity rank is
nondecreasing in the systolic. -/
theorem classify_mono_s (d s1 s2 : ℚ) (hd : d < 90) (h12 : s1 ≤ s2) :
    severityRank (classify_blood_pressure s1 d) ≤
      severityRank (classify_blood_pressure s2 d) := by
  rcases lt_or_le d 80 with h80 | h80
  · rw [classify_of_dlt80 s1 d h80, classify_of_dlt80 s2 d h80]
    split_ifs <;> first | (simp only [severityRank]; decide) | (exfalso; linarith)
  · rw [classify_of_dband s1 d h80 hd, classify_of_dband s2 d h80 hd]

/-! ## Claim theorems -/

/-- C3: the blood-pressure classifier implements the spec's eight-rule
table evaluated top-down with first match winning, thresholds
inclusive/exclusive exactly as stated; in particular
classify(110,70)=NORMAL, classify(150,95)=GRADE_1 and
classify(190,120)=GRADE_3. -/
theorem claim_C3_classifier_table :
    (∀ s d : ℚ, classify_blood_pressure s d = classify_spec s d)
    ∧ classify_blood_pressure 110 70 = .NORMAL
    ∧ classify_blood_pressure 150 95 = .GRADE_1
    ∧ classify_blood_pressure 190 120 = .GRADE_3 := by
  refine ⟨fun s d => ?_, by decide, by decide, by decide⟩
  simp only [classify_blood_pressure, classify_spec, spec_rule_table, first_match,
    Bool.and_eq_true, Bool.or_eq_true, decide_eq_true_eq]

/-- C10: the classifier never returns ISOLATED_SYSTOLIC: rule 7 is
unreachable because every input with systolic ≥ 140 and diastolic < 90
is already captured by rule 3, 4, 5 or 6. -/
theorem claim_C10_isolated_systolic_unreachable :
    ∀ s d : ℚ, classify_blood_pressure s d ≠ .ISOLATED_SYSTOLIC := by
  intro s d
  unfold classify_blood_pressure
  split_ifs <;> simp_all

/-- C5 counterexample: inside the claimed domain (systolic in
[60,300], diastolic in [40,200], diastolic < systolic) the severity
rank is not monotone in the systolic: at diastolic 95, systolic 120
classifies GRADE_1 (rank 2) but systolic 135 classifies HIGH_NORMAL
(rank 1). -/
theorem claim_C5_counterexample :
    (60:ℚ) ≤ 120 ∧ (120:ℚ) ≤ 300 ∧ (60:ℚ) ≤ 135 ∧ (135:ℚ) ≤ 300
    ∧ (40:ℚ) ≤ 95 ∧ (95:ℚ) ≤ 200 ∧ (95:ℚ) < 120 ∧ (95:ℚ) < 135 ∧ (120:ℚ) ≤ 135
    ∧ classify_blood_pressure 120 95 = .GRADE_1
    ∧ classify_blood_pressure 135 95 = .HIGH_NORMAL
    ∧ ¬ severityRank (classify_blood_pressure 120 95) ≤
        severityRank (classify_blood_pressure 135 95) := by
  decide

/-- C5 amended: the classifier is total (it is a function into the
level enum), and the monotonicity in systolic holds on the claimed
domain only when the fixed diastolic is below 90; for diastolic ≥ 90
it fails (see the counterexample at diastolic 95). -/
theorem claim_C5_amended (d s1 s2 : ℚ)
    (h1l : 60 ≤ s1) (h1u : s1 ≤ 300) (h2l : 60 ≤ s2) (h2u : s2 ≤ 300)
    (hdl : 40 ≤ d) (hdu : d ≤ 200) (hds1 : d < s1) (hds2 : d < s2)
    (hd90 : d < 90) (h12 : s1 ≤ s2) :
    severityRank (classify_blood_pressure s1 d) ≤
      severityRank (classify_blood_pressure s2 d) :=
  classify_mono_s d s1 s2 hd90 h12

/-- Profile used by the C1 counterexample: a 50-year-old male at
190/80 mmHg with no comorbidity flags. -/
def c1_profile : PatientProfile :=
  { age := 50, gender := "男", systolic_bp := 190, diastolic_bp := 80 }

/-- C1 counterexample: a crisis-level profile (systolic 190 ≥ 180, no
warning-triggering comorbidity flags) whose emergency result does NOT
contain the lower-urgency warning: the crisis branch and the
lower-urgency branch are an if/elif pair, not a non-exclusive union. -/
theorem claim_C1_counterexample :
    ((180:ℚ) ≤ c1_profile.systolic_bp ∨ (110:ℚ) ≤ c1_profile.diastolic_bp)
    ∧ ((160:ℚ) ≤ c1_profile.systolic_bp ∨ (100:ℚ) ≤ c1_profile.diastolic_bp)
    ∧ (check_emergency_status c1_profile).is_emergency = true
    ∧ "血压明显升高，需要及时干预" ∉ (check_emergency_status c1_profile).warnings := by
  decide

/-- C1 amended: in the advice generator's `_check_emergency_status`
the crisis condition (systolic ≥ 180 or diastolic ≥ 110) and the
lower-urgency condition (systolic ≥ 160 or diastolic ≥ 100) are
mutually exclusive branches of an if/elif chain: every profile meeting
the crisis condition (with no warning-triggering comorbidity flags)
gets is_emergency = true and exactly the single crisis warning, the
lower-urgency warning being absent; the non-exclusive union the spec
describes holds instead of the agent-level `emergency_check`, whose
result on a crisis reading has is_emergency = true and contains both
crisis warnings together with the lower-urgency warning. -/
theorem claim_C1_amended (p : PatientProfile) (s d : ℚ)
    (hcrisis_p : 180 ≤ p.systolic_bp ∨ 110 ≤ p.diastolic_bp)
    (hdiab : p.diabetes = false) (hstroke : p.stroke_history = false)
    (hcrisis : 180 ≤ s ∨ 110 ≤ d) :
    ((check_emergency_status p).is_emergency = true
      ∧ (check_emergency_status p).warnings = ["血压严重升高，属于高血压危象"]
      ∧ "血压明显升高，需要及时干预" ∉ (check_emergency_status p).warnings)
    ∧ ((emergency_check s d).is_emergency = true
      ∧ "血压严重升高，属于高血压危象" ∈ (emergency_check s d).warnings
      ∧ "建议立即就医，不要等待" ∈ (emergency_check s d).warnings
      ∧ "血压明显升高，建议尽快就医" ∈ (emergency_check s d).warnings) := by
  have hlow : 160 ≤ s ∨ 100 ≤ d := by
    rcases hcrisis with h | h
    · exact Or.inl (by linarith)
    · exact Or.inr (by linarith)
  constructor
  · unfold check_emergency_status
    split_ifs <;> simp_all
  · unfold emergency_check
    dsimp only
    rw [if_pos hcrisis, if_pos hlow]
    exact ⟨decide_eq_true hcrisis, by simp, by simp, by simp⟩

/-- C1 witness: the amended statement applied to the 190/80 profile
with no comorbidity flags and to the reading (190, 80). -/
theorem claim_C1_witness :
    ((check_emergency_status c1_profile).is_emergency = true
      ∧ (check_emergency_status c1_profile).warnings = ["血压严重升高，属于高血压危象"]
      ∧ "血压明显升高，需要及时干预" ∉ (check_emergency_status c1_profile).warnings)
    ∧ ((emergency_check 190 80).is_emergency = true
      ∧ "血压严重升高，属于高血压危象" ∈ (emergency_check 190 80).warnings
      ∧ "建议立即就医，不要等待" ∈ (emergency_check 190 80).warnings
      ∧ "血压明显升高，建议尽快就医" ∈ (emergency_check 190 80).warnings) :=
  claim_C1_amended c1_profile 190 80 (Or.inl (by decide)) rfl rfl (Or.inl (by norm_num))

/-- Profile used by the C2 counterexample: a GRADE_3 reading. -/
def c2_profile : PatientProfile :=
  { age := 50, gender := "男", systolic_bp := 190, diastolic_bp := 120 }

/-- C2 counterexample: for a GRADE_3 profile the engine's monitoring
plan (`generate_monitoring_plan`) carries the fixed 2-4 week initial
follow-up string, not the claimed 1-2 week band: the level-dependent
cadence lives in the advice generator's follow-up plan, not in the
engine's monitoring plan. -/
theorem claim_C2_counterexample :
    classify_blood_pressure c2_profile.systolic_bp c2_profile.diastolic_bp = .GRADE_3
    ∧ (generate_monitoring_plan c2_profile).follow_up_initial = "2-4周后复查，评估疗效"
    ∧ (generate_monitoring_plan c2_profile).follow_up_initial ≠ "1-2周" := by
  decide

/-- C2 amended: the level-dependent follow-up cadence holds of the
advice generator's follow-up plan (`_generate_followup_plan`), not of
the engine's monitoring plan: for every profile classified GRADE_2 or
GRADE_3 the follow-up plan has the 1-2 week initial band with the
2-4 week adjustment interval; for GRADE_1 the 2-4 week band with the
4-6 week adjustment interval; otherwise the 1-3 month band; while the
engine's monitoring plan carries a fixed 2-4 week initial follow-up
independent of the level. -/
theorem claim_C2_amended (p : PatientProfile) :
    ((classify_blood_pressure p.systolic_bp p.diastolic_bp = .GRADE_2
        ∨ classify_blood_pressure p.systolic_bp p.diastolic_bp = .GRADE_3) →
      generate_followup_plan p =
        ⟨"1-2周", "每2-4周调整治疗方案", "血压稳定后每1-2个月", "每年全面评估一次"⟩)
    ∧ (classify_blood_pressure p.systolic_bp p.diastolic_bp = .GRADE_1 →
      generate_followup_plan p =
        ⟨"2-4周", "每4-6周评估疗效", "血压稳定后每2-3个月", "每年全面评估一次"⟩)
    ∧ (classify_blood_pressure p.systolic_bp p.diastolic_bp ≠ .GRADE_1 →
       classify_blood_pressure p.systolic_bp p.diastolic_bp ≠ .GRADE_2 →
       classify_blood_pressure p.systolic_bp p.diastolic_bp ≠ .GRADE_3 →
      generate_followup_plan p = ⟨"1-3个月", "根据需要调整", "每3-6个月", "每年体检一次"⟩)
    ∧ (generate_monitoring_plan p).follow_up_initial = "2-4周后复查，评估疗效" := by
  cases hbp : classify_blood_pressure p.systolic_bp p.diastolic_bp <;>
    simp [generate_followup_plan, generate_monitoring_plan, BloodPressureLevel.value, hbp]

/-- C5 witness: the amended monotonicity applied at diastolic 70,
systolic 100 and 150. -/
theorem claim_C5_witness :
    severityRank (classify_blood_pressure 100 70) ≤
      severityRank (classify_blood_pressure 150 70) :=
  claim_C5_amended 70 100 150 (by norm_num) (by norm_num) (by norm_num) (by norm_num)
    (by norm_num) (by norm_num) (by norm_num) (by norm_num) (by norm_num) (by norm_num)

/-- The medication gate as a predicate on the classified level and the
assessed risk. -/
theorem needs_medication_flag_iff (p : PatientProfile) :
    needs_medication_flag p = true ↔
      (classify_blood_pressure p.systolic_bp p.diastolic_bp = .GRADE_2
       ∨ classify_blood_pressure p.systolic_bp p.diastolic_bp = .GRADE_3
       ∨ (classify_blood_pressure p.systolic_bp p.diastolic_bp = .GRADE_1
          ∧ (assess_cardiovascular_risk p = .HIGH
             ∨ assess_cardiovascular_risk p = .VERY_HIGH))) := by
  cases hbp : classify_blood_pressure p.systolic_bp p.diastolic_bp <;>
    cases hrisk : assess_cardiovascular_risk p <;>
      simp [needs_medication_flag, hbp, hrisk]

/-- The `needs_medication` field of the returned record is the flag. -/
theorem recommend_needs_eq_flag (p : PatientProfile) :
    (recommend_medications p).needs_medication = needs_medication_flag p := by
  unfold recommend_medications
  split_ifs with h
  · exact h.symm
  · simp at h
    exact h.symm

/-- C4: the risk stratifier computes the claimed risk count and
damage flag and assigns the tier by the claimed ordered table. -/
theorem claim_C4_risk_stratifier (p : PatientProfile) :
    assess_cardiovascular_risk p =
      tier_spec (classify_blood_pressure p.systolic_bp p.diastolic_bp)
        (risk_count p) (target_organ_damage p)
    ∧ risk_count p =
        [p.smoking, p.diabetes, p.family_history,
          p.heart_disease, p.kidney_disease, p.stroke_history].count true
        + (if (55 ≤ p.age ∧ p.gender = "男") ∨ (65 ≤ p.age ∧ p.gender = "女") then 1 else 0)
        + (match p.bmi with
           | some b => if 28 ≤ b then 1 else 0
           | none => 0)
    ∧ target_organ_damage p = (p.heart_disease || p.kidney_disease || p.stroke_history) := by
  refine ⟨?_, rfl, rfl⟩
  unfold assess_cardiovascular_risk tier_spec
  cases hbp : classify_blood_pressure p.systolic_bp p.diastolic_bp <;>
    simp [hbp] <;> split_ifs <;> simp_all <;> omega

/-- C6: needs_medication is true exactly when the level is GRADE_2 or
GRADE_3, or GRADE_1 with HIGH or VERY_HIGH risk; and a false gate
returns empty drug lists with the lifestyle-only, recheck-in-3-months
recommendation. -/
theorem claim_C6_medication_gate (p : PatientProfile) :
    ((recommend_medications p).needs_medication = true ↔
      (classify_blood_pressure p.systolic_bp p.diastolic_bp = .GRADE_2
       ∨ classify_blood_pressure p.systolic_bp p.diastolic_bp = .GRADE_3
       ∨ (classify_blood_pressure p.systolic_bp p.diastolic_bp = .GRADE_1
          ∧ (assess_cardiovascular_risk p = .HIGH
             ∨ assess_cardiovascular_risk p = .VERY_HIGH))))
    ∧ ((recommend_medications p).needs_medication = false →
        (recommend_medications p).primary_drugs = []
        ∧ (recommend_medications p).combination_drugs = []
        ∧ (recommend_medications p).contraindications = []
        ∧ (recommend_medications p).recommendation =
            some "暂时不需要药物治疗，建议生活方式干预，3个月后复查") := by
  constructor
  · rw [recommend_needs_eq_flag]
    exact needs_medication_flag_iff p
  · intro hfalse
    rw [recommend_needs_eq_flag] at hfalse
    unfold recommend_medications
    rw [if_pos hfalse]
    exact ⟨rfl, rfl, rfl, rfl⟩

/-- C7: whenever medication is needed, the primary-drug list is
non-empty; when no comorbidity or age rule matched (no diabetes,
kidney disease or heart disease, age below 60 and not classified
isolated-systolic) it is exactly the ACEI/ARB-class general first-line
default entry; it contains an ACEI/ARB-class entry whenever the
patient has diabetes or kidney disease; and the combination list is
exactly the three standard two-drug strings precisely when the level
is GRADE_2 or GRADE_3. -/
theorem claim_C7_drug_selection (p : PatientProfile)
    (hneeds : (recommend_medications p).needs_medication = true) :
    (recommend_medications p).primary_drugs ≠ []
    ∧ (p.diabetes = false → p.kidney_disease = false → p.heart_disease = false →
       p.age < 60 →
       classify_blood_pressure p.systolic_bp p.diastolic_bp ≠ .ISOLATED_SYSTOLIC →
        (recommend_medications p).primary_drugs = [acei_default_drug]
        ∧ acei_default_drug.type = "ACEI/ARB")
    ∧ ((p.diabetes = true ∨ p.kidney_disease = true) →
        ∃ dr ∈ (recommend_medications p).primary_drugs, dr.type = "ACEI/ARB")
    ∧ ((recommend_medications p).combination_drugs =
          ["ACEI/ARB + 钙通道阻滞剂", "ACEI/ARB + 利尿剂", "钙通道阻滞剂 + 利尿剂"]
        ↔ (classify_blood_pressure p.systolic_bp p.diastolic_bp = .GRADE_2
           ∨ classify_blood_pressure p.systolic_bp p.diastolic_bp = .GRADE_3)) := by
  rw [recommend_needs_eq_flag] at hneeds
  have hne : ¬ needs_medication_flag p = false := by simp [hneeds]
  unfold recommend_medications
  rw [if_neg hne]
  dsimp only
  refine ⟨?_, ?_, ?_, ?_⟩
  · split_ifs with h <;> simp_all
  · intro hd hk hh ha hiso
    have hpool : primary_drug_pool p
        (classify_blood_pressure p.systolic_bp p.diastolic_bp) = [] := by
      simp [primary_drug_pool, hd, hk, hh, not_le.mpr ha, hiso]
    rw [if_pos hpool]
    exact ⟨rfl, rfl⟩
  · intro hdk
    simp only [primary_drug_pool, if_pos hdk, List.singleton_append, List.cons_append]
    rw [if_neg (List.cons_ne_nil _ _)]
    exact ⟨acei_comorbid_drug, List.mem_cons_self _ _, rfl⟩
  · split_ifs with h
    · exact iff_of_true rfl h
    · exact iff_of_false (by simp) h

/-- Profile used by the C7 witness: GRADE_2 at 165/105 with
diabetes. -/
def c7_profile : PatientProfile :=
  { age := 50, gender := "男", systolic_bp := 165, diastolic_bp := 105, diabetes := true }

/-- C7 witness: a GRADE_2 diabetic profile needs medication, gets a
non-empty primary list containing an ACEI/ARB entry, and gets the
three standard combinations. -/
theorem claim_C7_witness :
    (recommend_medications c7_profile).primary_drugs ≠ []
    ∧ (c7_profile.diabetes = false → c7_profile.kidney_disease = false →
       c7_profile.heart_disease = false → c7_profile.age < 60 →
       classify_blood_pressure c7_profile.systolic_bp c7_profile.diastolic_bp
           ≠ .ISOLATED_SYSTOLIC →
        (recommend_medications c7_profile).primary_drugs = [acei_default_drug]
        ∧ acei_default_drug.type = "ACEI/ARB")
    ∧ ((c7_profile.diabetes = true ∨ c7_profile.kidney_disease = true) →
        ∃ dr ∈ (recommend_medications c7_profile).primary_drugs, dr.type = "ACEI/ARB")
    ∧ ((recommend_medications c7_profile).combination_drugs =
          ["ACEI/ARB + 钙通道阻滞剂", "ACEI/ARB + 利尿剂", "钙通道阻滞剂 + 利尿剂"]
        ↔ (classify_blood_pressure c7_profile.systolic_bp c7_profile.diastolic_bp = .GRADE_2
           ∨ classify_blood_pressure c7_profile.systolic_bp c7_profile.diastolic_bp
               = .GRADE_3)) :=
  claim_C7_drug_selection c7_profile (by decide)

/-- C8: the target-blood-pressure rules are evaluated in order with
the first match winning: diabetes or kidney disease gives (130,80);
otherwise age ≥ 65 gives (150,90) even with heart disease; otherwise
heart disease gives (130,80); otherwise (140,90). -/
theorem claim_C8_target_bp (p : PatientProfile) :
    ((p.diabetes = true ∨ p.kidney_disease = true) →
      get_target_blood_pressure p = (130, 80))
    ∧ (p.diabetes = false → p.kidney_disease = false → 65 ≤ p.age →
      get_target_blood_pressure p = (150, 90))
    ∧ (p.diabetes = false → p.kidney_disease = false → p.age < 65 →
       p.heart_disease = true → get_target_blood_pressure p = (130, 80))
    ∧ (p.diabetes = false → p.kidney_disease = false → p.age < 65 →
       p.heart_disease = false → get_target_blood_pressure p = (140, 90)) := by
  unfold get_target_blood_pressure
  refine ⟨fun h => by rw [if_pos h], fun hd hk ha => ?_, fun hd hk ha hh => ?_,
    fun hd hk ha hh => ?_⟩
  · rw [if_neg (by simp [hd, hk]), if_pos ha]
  · rw [if_neg (by simp [hd, hk]), if_neg (not_le.mpr ha), if_pos hh]
  · rw [if_neg (by simp [hd, hk]), if_neg (not_le.mpr ha), if_neg (by simp [hh])]

/-- C9: with both diabetes and kidney disease, the monitoring plan's
laboratory list is the baseline four-test panel extended independently
by the diabetic pair and the kidney pair: a strict superset of the
baseline containing HbA1c exactly once and the renal-function test
exactly once. -/
theorem claim_C9_lab_panel (p : PatientProfile)
    (hd : p.diabetes = true) (hk : p.kidney_disease = true) :
    (generate_monitoring_plan p).laboratory =
      ["血常规", "生化全项", "尿常规", "心电图"]
      ++ ["HbA1c", "糖化血红蛋白"] ++ ["肾功能", "尿蛋白"]
    ∧ (∀ x ∈ ["血常规", "生化全项", "尿常规", "心电图"],
        x ∈ (generate_monitoring_plan p).laboratory)
    ∧ (∃ x ∈ (generate_monitoring_plan p).laboratory,
        x ∉ ["血常规", "生化全项", "尿常规", "心电图"])
    ∧ (generate_monitoring_plan p).laboratory.count "HbA1c" = 1
    ∧ (generate_monitoring_plan p).laboratory.count "肾功能" = 1 := by
  have hlab : (generate_monitoring_plan p).laboratory =
      ["血常规", "生化全项", "尿常规", "心电图", "HbA1c", "糖化血红蛋白", "肾功能", "尿蛋白"] := by
    simp [generate_monitoring_plan, hd, hk]
  rw [hlab]
  refine ⟨rfl, by decide, by decide, by decide, by decide⟩

/-- C9 witness: the lab-panel statement at a concrete
diabetic-plus-kidney-disease profile. -/
theorem claim_C9_witness :
    (generate_monitoring_plan
        { age := 60, gender := "女", systolic_bp := 150, diastolic_bp := 95,
          diabetes := true, kidney_disease := true }).laboratory =
      ["血常规", "生化全项", "尿常规", "心电图"]
      ++ ["HbA1c", "糖化血红蛋白"] ++ ["肾功能", "尿蛋白"]
    ∧ (∀ x ∈ ["血常规", "生化全项", "尿常规", "心电图"],
        x ∈ (generate_monitoring_plan
          { age := 60, gender := "女", systolic_bp := 150, diastolic_bp := 95,
            diabetes := true, kidney_disease := true }).laboratory)
    ∧ (∃ x ∈ (generate_monitoring_plan
          { age := 60, gender := "女", systolic_bp := 150, diastolic_bp := 95,
            diabetes := true, kidney_disease := true }).laboratory,
        x ∉ ["血常规", "生化全项", "尿常规", "心电图"])
    ∧ (generate_monitoring_plan
        { age := 60, gender := "女", systolic_bp := 150, diastolic_bp := 95,
          diabetes := true, kidney_disease := true }).laboratory.count "HbA1c" = 1
    ∧ (generate_monitoring_plan
        { age := 60, gender := "女", systolic_bp := 150, diastolic_bp := 95,
          diabetes := true, kidney_disease := true }).laboratory.count "肾功能" = 1 :=
  claim_C9_lab_panel
    { age := 60, gender := "女", systolic_bp := 150, diastolic_bp := 95,
      diabetes := true, kidney_disease := true } rfl rfl
